import Mathlib

/-!
Verification of the referral-system API (`src/main.py`) against its
specification. The data model and the request handlers are embedded
shallowly: the database session is a `DB` value (a list of `users` rows
and a list of `referrals` rows), handlers are pure functions from a `DB`
to a result and an updated `DB`, and an `HTTPException` is an `ApiError`
value. Timestamps are abstracted to a `Nat` clock passed to the handler,
and commit success is an explicit `Bool` oracle where the claim concerns
storage failure.
-/

namespace NewtestApi

/-- A row of the `users` table (`User` model, src/main.py lines 24-30):
Telegram id, display name, referral link and point balance. -/
structure User where
  tg_id : String
  username : String
  ref_link : String
  points : Int
deriving Repr, DecidableEq

/-- A row of the `referrals` table (`Referral` model, src/main.py lines
32-38): creation date, referrer id, friend id and awarded points. -/
structure Referral where
  date : Nat
  user_tg_id : String
  friend_tg_id : String
  points : Int
deriving Repr, DecidableEq

/-- The database state seen by one request: the two tables. -/
structure DB where
  users : List User
  referrals : List Referral
deriving Repr, DecidableEq

/-- An `HTTPException(status_code, detail)` raised by a handler. -/
inductive ApiError where
  | httpError (status : Nat) (detail : String)
deriving Repr, DecidableEq

/-- Mutate the first element satisfying `p` (the ORM pattern
`db.query(..).filter(..).first()` followed by an in-place update of the
returned row); the rest of the list is untouched. -/
def modFirst (p : α → Bool) (f : α → α) : List α → List α
  | [] => []
  | x :: xs => if p x then f x :: xs else x :: modFirst p f xs

/-- `db.query(User).filter(User.tg_id == tg_id).first()`. -/
def findUser (db : DB) (tg_id : String) : Option User :=
  db.users.find? fun u => u.tg_id == tg_id

/-- `db.query(Referral).filter(user ==, friend ==).first()`
(src/main.py lines 135-138). -/
def findReferral (db : DB) (user_tg_id friend_tg_id : String) : Option Referral :=
  db.referrals.find? fun r => r.user_tg_id == user_tg_id && r.friend_tg_id == friend_tg_id

/-- The referral-link template of src/main.py line 93:
`f"https://t.me/tma123_bot?startapp={tg_id}"`. -/
def refLinkFor (tg_id : String) : String :=
  "https://t.me/tma123_bot?startapp=" ++ tg_id

/-- `get_or_create_user` (src/main.py lines 90-98): return the existing
row, or insert a fresh one with zero points and the derived link. -/
def get_or_create_user (db : DB) (tg_id username : String) : User × DB :=
  match findUser db tg_id with
  | some user => (user, db)
  | none =>
      let user : User :=
        { tg_id := tg_id, username := username, ref_link := refLinkFor tg_id, points := 0 }
      (user, { db with users := db.users ++ [user] })

/-- `create_referral` (src/main.py lines 133-157). An existing row for
the ordered pair raises HTTP 400 before anything is written. Otherwise a
new `Referral` with `points=100` is added and, when a user row with the
referrer id exists, its balance is increased by 100; both pending writes
reach the store through the single `db.commit()` of line 155, modelled
by the `commitOk` oracle: on commit failure nothing is persisted and the
error surfaces to the caller (FastAPI returns a 500). -/
def create_referral (db : DB) (user_tg_id friend_tg_id : String) (now : Nat)
    (commitOk : Bool) : Except ApiError Referral × DB :=
  match findReferral db user_tg_id friend_tg_id with
  | some _ => (Except.error (ApiError.httpError 400 "Referral already exists"), db)
  | none =>
      let newReferral : Referral :=
        { date := now, user_tg_id := user_tg_id, friend_tg_id := friend_tg_id, points := 100 }
      let pending : DB :=
        { users := modFirst (fun u => u.tg_id == user_tg_id)
            (fun u => { u with points := u.points + 100 }) db.users,
          referrals := db.referrals ++ [newReferral] }
      if commitOk then (Except.ok newReferral, pending)
      else (Except.error (ApiError.httpError 500 "Internal Server Error"), db)

/-- `get_user_points` (src/main.py lines 173-178): 404 when the user row
is absent, else the stored `points` column of the user row. -/
def get_user_points (db : DB) (tg_id : String) : Except ApiError Int :=
  match findUser db tg_id with
  | none => Except.error (ApiError.httpError 404 "User not found")
  | some user => Except.ok user.points

/-- `update_user_points` (src/main.py lines 180-188), the spec's
`set_points`: 404 when absent, else overwrite the balance with the
request value and echo it back. -/
def update_user_points (db : DB) (tg_id : String) (points : Int) :
    Except ApiError (Int × DB) :=
  match findUser db tg_id with
  | none => Except.error (ApiError.httpError 404 "User not found")
  | some _ =>
      let users' := modFirst (fun u => u.tg_id == tg_id)
        (fun u => { u with points := points }) db.users
      Except.ok (points, { db with users := users' })

/-- `update_referral_link` (src/main.py lines 166-171): get-or-create
the user with empty display name, then overwrite its `ref_link` with the
caller-supplied value. -/
def update_referral_link (db : DB) (tg_id : String) (ref_link : String) :
    String × DB :=
  let r := get_or_create_user db tg_id ""
  let users' := modFirst (fun u => u.tg_id == tg_id)
    (fun u => { u with ref_link := ref_link }) r.2.users
  ("Referral link updated successfully", { r.2 with users := users' })

/-- The stored point balance of an identity, when its row exists. -/
def pointsOf (db : DB) (tg_id : String) : Option Int :=
  (findUser db tg_id).map User.points

/-- The stored referral link of an identity, when its row exists. -/
def refLinkOf (db : DB) (tg_id : String) : Option String :=
  (findUser db tg_id).map User.ref_link

/-- Modelled from the spec (total_points_for, spec section 4.3): the sum
of the `points` field over all Referral rows whose referrer is the given
identity — the live recomputation the spec describes, to be compared
with what `get_user_points` actually returns. -/
def total_points_spec (db : DB) (tg_id : String) : Int :=
  ((db.referrals.filter fun r => r.user_tg_id == tg_id).map Referral.points).sum

/-- One request to the mutating API surface, excluding the
points-overwrite endpoint; used to state the amended monotonicity
invariant over operation sequences. -/
inductive Op where
  | opGetOrCreate (tg_id username : String)
  | opCreateReferral (user_tg_id friend_tg_id : String) (now : Nat) (commitOk : Bool)
  | opUpdateRefLink (tg_id ref_link : String)

/-- The database after serving one request. -/
def applyOp (db : DB) : Op → DB
  | Op.opGetOrCreate t n => (get_or_create_user db t n).2
  | Op.opCreateReferral u f now ok => (create_referral db u f now ok).2
  | Op.opUpdateRefLink t l => (update_referral_link db t l).2

/-- The database after serving a sequence of requests. -/
def applyOps (db : DB) (ops : List Op) : DB := ops.foldl applyOp db

/-! Concrete rows and database states used to evaluate the handlers at
explicit inputs. -/

/-- A user "1" holding 5 points. -/
def uAlice : User := { tg_id := "1", username := "alice", ref_link := refLinkFor "1", points := 5 }

/-- An existing referral edge from "1" to "2" worth 100 points. -/
def rOneTwo : Referral := { date := 0, user_tg_id := "1", friend_tg_id := "2", points := 100 }

/-- A state holding user "1" (5 points) and the referral ("1","2"). -/
def dbPair : DB := { users := [uAlice], referrals := [rOneTwo] }

/-- A state holding user "1" (5 points) and no referrals. -/
def dbSolo : DB := { users := [uAlice], referrals := [] }

/-- A user "1" holding 100 points. -/
def uHundred : User := { tg_id := "1", username := "alice", ref_link := refLinkFor "1", points := 100 }

/-- A state holding user "1" with 100 points and no referrals. -/
def dbHundred : DB := { users := [uHundred], referrals := [] }

/-- `dbHundred` after the balance of user "1" is overwritten with 0. -/
def dbHundredZeroed : DB :=
  { users := [{ tg_id := "1", username := "alice", ref_link := refLinkFor "1", points := 0 }],
    referrals := [] }

/-- The empty database. -/
def dbEmpty : DB := { users := [], referrals := [] }

/-! Helper lemmas about `modFirst` and row lookup. -/

/-- Mutating the first `p`-row through a `q`-preserving update leaves a
`q`-lookup either unchanged or pointing at the updated row. -/
theorem find?_modFirst (p q : α → Bool) (f : α → α) (hq : ∀ x, q (f x) = q x) :
    ∀ {l : List α} {u : α}, l.find? q = some u →
      (modFirst p f l).find? q = some u ∨ (modFirst p f l).find? q = some (f u)
  | [], u, h => by simp at h
  | x :: xs, u, h => by
    by_cases hx : q x = true
    · rw [List.find?_cons_of_pos _ hx] at h
      cases h
      by_cases hp : p x = true
      · simp only [modFirst, if_pos hp]
        right
        exact List.find?_cons_of_pos _ (by rw [hq]; exact hx)
      · simp only [modFirst, if_neg hp]
        left
        exact List.find?_cons_of_pos _ hx
    · rw [List.find?_cons_of_neg _ hx] at h
      by_cases hp : p x = true
      · simp only [modFirst, if_pos hp]
        rw [List.find?_cons_of_neg _ (by rw [hq]; exact hx)]
        left
        exact h
      · simp only [modFirst, if_neg hp]
        rw [List.find?_cons_of_neg _ hx]
        exact find?_modFirst p q f hq h

/-- When the mutated row is the looked-up row itself, the lookup returns
the updated row. -/
theorem find?_modFirst_self (q : α → Bool) (f : α → α) (hq : ∀ x, q (f x) = q x) :
    ∀ {l : List α} {u : α}, l.find? q = some u →
      (modFirst q f l).find? q = some (f u)
  | [], u, h => by simp at h
  | x :: xs, u, h => by
    by_cases hx : q x = true
    · rw [List.find?_cons_of_pos _ hx] at h
      cases h
      simp only [modFirst, if_pos hx]
      exact List.find?_cons_of_pos _ (by rw [hq]; exact hx)
    · rw [List.find?_cons_of_neg _ hx] at h
      simp only [modFirst, if_neg hx]
      rw [List.find?_cons_of_neg _ hx]
      exact find?_modFirst_self q f hq h

/-- With no `p`-row present, `modFirst` is the identity. -/
theorem modFirst_of_none (p : α → Bool) (f : α → α) :
    ∀ {l : List α}, l.find? p = none → modFirst p f l = l
  | [], _ => rfl
  | x :: xs, h => by
    by_cases hx : p x = true
    · rw [List.find?_cons_of_pos _ hx] at h
      exact absurd h (by simp)
    · rw [List.find?_cons_of_neg _ hx] at h
      simp only [modFirst, if_neg hx]
      rw [modFirst_of_none p f h]

/-- An existing row survives `get_or_create_user` unchanged. -/
theorem findUser_get_or_create (db : DB) (t n A : String) (u : User)
    (h : findUser db A = some u) :
    findUser (get_or_create_user db t n).2 A = some u := by
  unfold get_or_create_user
  cases hf : findUser db t with
  | some v => exact h
  | none =>
    show List.find? _ (db.users ++ [_]) = some u
    rw [List.find?_append]
    rw [findUser] at h
    rw [h]
    rfl

/-- After `get_or_create_user` the returned row is the stored row for
its identity. -/
theorem findUser_after_create (db : DB) (t n : String) :
    findUser (get_or_create_user db t n).2 t = some (get_or_create_user db t n).1 := by
  unfold get_or_create_user
  cases hf : findUser db t with
  | some v => exact hf
  | none =>
    show List.find? _ (db.users ++ [_]) = some _
    rw [List.find?_append]
    rw [findUser] at hf
    rw [hf]
    simp

/-- With the identity already present, `get_or_create_user` returns the
stored row and leaves the database untouched. -/
theorem get_or_create_of_found (db : DB) (t n : String) (u : User)
    (h : findUser db t = some u) : get_or_create_user db t n = (u, db) := by
  unfold get_or_create_user
  rw [h]

/-- With the identity absent, `get_or_create_user` appends the fresh
default row and returns it. -/
theorem get_or_create_of_absent (db : DB) (t n : String) (h : findUser db t = none) :
    get_or_create_user db t n
      = ({ tg_id := t, username := n, ref_link := refLinkFor t, points := 0 },
         { db with users := db.users
             ++ [{ tg_id := t, username := n, ref_link := refLinkFor t, points := 0 }] }) := by
  unfold get_or_create_user
  rw [h]

/-- The successful-commit run of `create_referral` on a fresh pair,
written out: the new row is appended and the first user row with the
referrer id is credited 100 points. -/
theorem create_referral_success (db : DB) (uid fid : String) (now : Nat)
    (hr : findReferral db uid fid = none) :
    create_referral db uid fid now true
      = (Except.ok { date := now, user_tg_id := uid, friend_tg_id := fid, points := 100 },
         { users := modFirst (fun u => u.tg_id == uid)
             (fun u => { u with points := u.points + 100 }) db.users,
           referrals := db.referrals
             ++ [{ date := now, user_tg_id := uid, friend_tg_id := fid, points := 100 }] }) := by
  unfold create_referral
  rw [hr]
  rfl

/-- Crediting the referrer makes the stored balance of its first row
grow by exactly 100. -/
theorem pointsOf_credit (db : DB) (uid : String) (usr : User)
    (hu : findUser db uid = some usr) :
    (List.find? (fun u => u.tg_id == uid)
        (modFirst (fun u => u.tg_id == uid)
          (fun u => { u with points := u.points + 100 }) db.users)).map User.points
      = some (usr.points + 100) := by
  have hu' : db.users.find? (fun u => u.tg_id == uid) = some usr := hu
  rw [find?_modFirst_self (fun (u : User) => u.tg_id == uid)
      (fun (u : User) => { u with points := u.points + 100 }) (fun x => rfl) hu']
  rfl

/-- C1: counterexample — at the concrete state `dbPair`, which already
holds the referral ("1","2"), `create_referral` on that same ordered
pair does not succeed with the existing row: it answers with the HTTP
400 error "Referral already exists". -/
theorem C1_counterexample :
    (create_referral dbPair "1" "2" 5 true).1
        = Except.error (ApiError.httpError 400 "Referral already exists") ∧
      (create_referral dbPair "1" "2" 5 true).1 ≠ Except.ok rOneTwo := by
  refine ⟨rfl, ?_⟩
  intro h
  rw [show (create_referral dbPair "1" "2" 5 true).1
      = Except.error (ApiError.httpError 400 "Referral already exists") from rfl] at h
  exact Except.noConfusion h

/-- C1: [amended] calling `create_referral` on an ordered pair that
already has a Referral row is rejected with HTTP 400 "Referral already
exists"; no second row is inserted and no balance changes — the
database is returned unchanged. -/
theorem C1_duplicate_rejected (db : DB) (uid fid : String) (now : Nat) (ok : Bool)
    (r0 : Referral) (h : findReferral db uid fid = some r0) :
    create_referral db uid fid now ok
      = (Except.error (ApiError.httpError 400 "Referral already exists"), db) := by
  unfold create_referral
  rw [h]

/-- C1: witness — the amended statement at the concrete duplicate state. -/
theorem C1_duplicate_rejected_witness :
    create_referral dbPair "1" "2" 5 true
      = (Except.error (ApiError.httpError 400 "Referral already exists"), dbPair) :=
  C1_duplicate_rejected dbPair "1" "2" 5 true rOneTwo rfl

/-- C2: on a pair with no existing Referral row and an existing referrer
user, `create_referral` appends exactly one new Referral row carrying
points 100, returns it, and the referrer's stored balance becomes its
old value plus 100. -/
theorem C2_first_referral (db : DB) (uid fid : String) (now : Nat) (usr : User)
    (hr : findReferral db uid fid = none) (hu : findUser db uid = some usr) :
    ∃ r db', create_referral db uid fid now true = (Except.ok r, db') ∧
      r.points = 100 ∧ r.user_tg_id = uid ∧ r.friend_tg_id = fid ∧
      db'.referrals = db.referrals ++ [r] ∧
      pointsOf db' uid = some (usr.points + 100) := by
  rw [create_referral_success db uid fid now hr]
  refine ⟨_, _, rfl, rfl, rfl, rfl, rfl, ?_⟩
  exact pointsOf_credit db uid usr hu

/-- C2: witness — the statement at the concrete state `dbSolo`. -/
theorem C2_first_referral_witness :
    ∃ r db', create_referral dbSolo "1" "2" 7 true = (Except.ok r, db') ∧
      r.points = 100 ∧ r.user_tg_id = "1" ∧ r.friend_tg_id = "2" ∧
      db'.referrals = dbSolo.referrals ++ [r] ∧
      pointsOf db' "1" = some (uAlice.points + 100) :=
  C2_first_referral dbSolo "1" "2" 7 uAlice rfl rfl

/-- C3: counterexample — in the state `dbPair` user "1" stores 5 points
while the Referral table attributes 100 points to "1"; the points
endpoint answers 5, the stored balance, not the recomputed sum. -/
theorem C3_counterexample :
    get_user_points dbPair "1" = Except.ok 5 ∧
      total_points_spec dbPair "1" = 100 ∧ (5 : Int) ≠ 100 :=
  ⟨rfl, rfl, by decide⟩

/-- C3: [amended] the points endpoint returns the stored, denormalized
`User.points` balance of the identity's row (404 when absent); it does
not recompute from the Referral table, so it can differ from the sum of
Referral points attributed to the identity. -/
theorem C3_points_endpoint (db : DB) (t : String) (u : User)
    (h : findUser db t = some u) :
    get_user_points db t = Except.ok u.points := by
  unfold get_user_points
  rw [h]

/-- C3: witness — the amended statement at the concrete state `dbPair`. -/
theorem C3_points_endpoint_witness :
    get_user_points dbPair "1" = Except.ok uAlice.points :=
  C3_points_endpoint dbPair "1" uAlice rfl

/-- A stored balance comes from a stored row. -/
theorem pointsOf_elim (db : DB) (A : String) (p : Int)
    (h : pointsOf db A = some p) :
    ∃ u, db.users.find? (fun x => x.tg_id == A) = some u ∧ u.points = p := by
  unfold pointsOf at h
  cases hf : findUser db A with
  | none => rw [hf] at h; exact absurd h (by simp)
  | some u =>
    rw [hf] at h
    refine ⟨u, hf, ?_⟩
    simpa using h

/-- Serving any single request other than the points-overwrite endpoint
never lowers a stored balance. -/
theorem pointsOf_applyOp_mono (op : Op) (db : DB) (A : String) (p : Int)
    (h : pointsOf db A = some p) :
    ∃ q, pointsOf (applyOp db op) A = some q ∧ p ≤ q := by
  obtain ⟨u, hu, hup⟩ := pointsOf_elim db A p h
  cases op with
  | opGetOrCreate t n =>
    refine ⟨p, ?_, le_refl p⟩
    show (findUser (get_or_create_user db t n).2 A).map User.points = some p
    rw [findUser_get_or_create db t n A u hu]
    simp [hup]
  | opCreateReferral uid fid now ok =>
    cases hr : findReferral db uid fid with
    | some r0 =>
      refine ⟨p, ?_, le_refl p⟩
      show pointsOf (create_referral db uid fid now ok).2 A = some p
      unfold create_referral
      rw [hr]
      exact h
    | none =>
      cases ok with
      | false =>
        refine ⟨p, ?_, le_refl p⟩
        show pointsOf (create_referral db uid fid now false).2 A = some p
        unfold create_referral
        rw [hr]
        exact h
      | true =>
        rw [show applyOp db (Op.opCreateReferral uid fid now true)
            = (create_referral db uid fid now true).2 from rfl,
          create_referral_success db uid fid now hr]
        have hmod := find?_modFirst (fun (x : User) => x.tg_id == uid)
          (fun (x : User) => x.tg_id == A)
          (fun (x : User) => { x with points := x.points + 100 }) (fun x => rfl) hu
        cases hmod with
        | inl hsame =>
          refine ⟨p, ?_, le_refl p⟩
          show (List.find? _ _).map User.points = some p
          rw [hsame]
          simp [hup]
        | inr hcred =>
          refine ⟨u.points + 100, ?_, ?_⟩
          · show (List.find? _ _).map User.points = some (u.points + 100)
            rw [hcred]
            rfl
          · rw [← hup]
            linarith
  | opUpdateRefLink t l =>
    refine ⟨p, ?_, le_refl p⟩
    have hu2 : findUser (get_or_create_user db t "").2 A = some u :=
      findUser_get_or_create db t "" A u hu
    have hu2' : (get_or_create_user db t "").2.users.find? (fun x => x.tg_id == A)
        = some u := hu2
    have hmod := find?_modFirst (fun (x : User) => x.tg_id == t)
      (fun (x : User) => x.tg_id == A)
      (fun (x : User) => { x with ref_link := l }) (fun x => rfl) hu2'
    cases hmod with
    | inl hsame =>
      show (List.find? (fun (x : User) => x.tg_id == A)
          (modFirst (fun (x : User) => x.tg_id == t)
            (fun (x : User) => { x with ref_link := l })
            (get_or_create_user db t "").2.users)).map User.points = some p
      rw [hsame]
      simp [hup]
    | inr hmoved =>
      show (List.find? (fun (x : User) => x.tg_id == A)
          (modFirst (fun (x : User) => x.tg_id == t)
            (fun (x : User) => { x with ref_link := l })
            (get_or_create_user db t "").2.users)).map User.points = some p
      rw [hmoved]
      simpa using hup

/-- C4: counterexample — user "1" holds 100 points in `dbHundred`; the
points-overwrite endpoint (`set_points`) with value 0 succeeds and
leaves the balance at 0 < 100, so a balance did decrease. -/
theorem C4_counterexample :
    pointsOf dbHundred "1" = some 100 ∧
      update_user_points dbHundred "1" 0 = Except.ok (0, dbHundredZeroed) ∧
      pointsOf dbHundredZeroed "1" = some 0 ∧ (0 : Int) < 100 :=
  ⟨rfl, rfl, rfl, by decide⟩

/-- C4: [amended] under every sequence of get-or-create, referral
creation and referral-link update requests, a user's stored point
balance is monotonically non-decreasing; the points-overwrite endpoint
(`set_points`) is the exception — it overwrites unconditionally and can
lower the balance. -/
theorem C4_points_monotone (db : DB) (ops : List Op) (A : String) (p : Int)
    (h : pointsOf db A = some p) :
    ∃ q, pointsOf (applyOps db ops) A = some q ∧ p ≤ q := by
  induction ops generalizing db p with
  | nil => exact ⟨p, h, le_refl p⟩
  | cons op rest ih =>
    obtain ⟨p₁, h₁, hp₁⟩ := pointsOf_applyOp_mono op db A p h
    obtain ⟨q, hq, hpq⟩ := ih (applyOp db op) p₁ h₁
    exact ⟨q, hq, le_trans hp₁ hpq⟩

/-- C4: witness — after one referral creation from `dbSolo`, user "1"
still holds at least its previous 5 points. -/
theorem C4_points_monotone_witness :
    ∃ q, pointsOf (applyOps dbSolo [Op.opCreateReferral "1" "2" 0 true]) "1" = some q ∧
      (5 : Int) ≤ q :=
  C4_points_monotone dbSolo [Op.opCreateReferral "1" "2" 0 true] "1" 5 rfl

/-- C5: `get_or_create_user` is idempotent — a second call with the same
identity, whatever display name is passed, returns exactly the first
call's user and database: the stored record is unchanged and no write
happens. -/
theorem C5_get_or_create_idempotent (db : DB) (t n₁ n₂ : String) :
    get_or_create_user (get_or_create_user db t n₁).2 t n₂
      = get_or_create_user db t n₁ := by
  rw [get_or_create_of_found _ t n₂ _ (findUser_after_create db t n₁)]

/-- C6: the referral insert and the balance credit are atomic — the
single commit either persists both (the new row is appended and the
referrer's balance grows by 100) or, on commit failure, persists
neither: the database is returned unchanged and an error surfaces to
the caller. No partial state is observable. -/
theorem C6_create_referral_atomic (db : DB) (uid fid : String) (now : Nat) (ok : Bool)
    (usr : User) (hr : findReferral db uid fid = none) (hu : findUser db uid = some usr) :
    (∃ r, (create_referral db uid fid now ok).1 = Except.ok r ∧
        (create_referral db uid fid now ok).2.referrals = db.referrals ++ [r] ∧
        pointsOf (create_referral db uid fid now ok).2 uid = some (usr.points + 100)) ∨
      ((∃ e, (create_referral db uid fid now ok).1 = Except.error e) ∧
        (create_referral db uid fid now ok).2 = db) := by
  cases ok with
  | false =>
    right
    have key : create_referral db uid fid now false
        = (Except.error (ApiError.httpError 500 "Internal Server Error"), db) := by
      unfold create_referral
      rw [hr]
      rfl
    rw [key]
    exact ⟨⟨ApiError.httpError 500 "Internal Server Error", rfl⟩, rfl⟩
  | true =>
    left
    rw [create_referral_success db uid fid now hr]
    exact ⟨_, rfl, rfl, pointsOf_credit db uid usr hu⟩

/-- C6: witness — the statement at the concrete state `dbSolo` with a
failing commit: the database comes back unchanged. -/
theorem C6_create_referral_atomic_witness :
    (∃ r, (create_referral dbSolo "1" "2" 3 false).1 = Except.ok r ∧
        (create_referral dbSolo "1" "2" 3 false).2.referrals = dbSolo.referrals ++ [r] ∧
        pointsOf (create_referral dbSolo "1" "2" 3 false).2 "1" = some (uAlice.points + 100)) ∨
      ((∃ e, (create_referral dbSolo "1" "2" 3 false).1 = Except.error e) ∧
        (create_referral dbSolo "1" "2" 3 false).2 = dbSolo) :=
  C6_create_referral_atomic dbSolo "1" "2" 3 false uAlice rfl rfl

/-- C7: the points-overwrite endpoint fails with the 404 "User not
found" error exactly when no row with the identity exists; on an
existing user it sets the stored balance to the request value,
whatever the previous balance was. -/
theorem C7_set_points (db : DB) (t : String) (v : Int) :
    (update_user_points db t v
        = Except.error (ApiError.httpError 404 "User not found") ↔ findUser db t = none) ∧
      ∀ u, findUser db t = some u →
        ∃ db', update_user_points db t v = Except.ok (v, db') ∧ pointsOf db' t = some v := by
  cases hf : findUser db t with
  | none =>
    refine ⟨⟨fun _ => rfl, fun _ => ?_⟩, fun u hu => absurd hu (by simp)⟩
    unfold update_user_points
    rw [hf]
  | some u₀ =>
    have key : update_user_points db t v
        = Except.ok (v, { db with users := (modFirst (fun (x : User) => x.tg_id == t)
            (fun (x : User) => { x with points := v }) db.users) }) := by
      unfold update_user_points
      rw [hf]
    refine ⟨⟨fun herr => ?_, fun hnone => absurd hnone (by simp)⟩, fun u hu => ?_⟩
    · rw [key] at herr
      exact absurd herr (by simp)
    · refine ⟨_, key, ?_⟩
      have hu0 : db.users.find? (fun x => x.tg_id == t) = some u₀ := hf
      show (List.find? (fun (x : User) => x.tg_id == t)
          (modFirst (fun (x : User) => x.tg_id == t)
            (fun (x : User) => { x with points := v }) db.users)).map User.points = some v
      rw [find?_modFirst_self (fun (x : User) => x.tg_id == t)
          (fun (x : User) => { x with points := v }) (fun x => rfl) hu0]
      rfl

/-- C7: witness — overwriting user "1" of `dbSolo` (balance 5) with 42
succeeds and leaves the stored balance at 42. -/
theorem C7_set_points_witness :
    ∃ db', update_user_points dbSolo "1" 42 = Except.ok (42, db') ∧
      pointsOf db' "1" = some 42 :=
  (C7_set_points dbSolo "1" 42).2 uAlice rfl

/-- C8: creating a user for an absent identity gives it balance 0 and
the referral link obtained from the fixed URL template applied to the
identity alone — so the link is deterministic in the identity,
whatever database state or display name the creation happens with. -/
theorem C8_new_user_defaults (db : DB) (t n : String) (h : findUser db t = none) :
    (get_or_create_user db t n).1.points = 0 ∧
      (get_or_create_user db t n).1.ref_link = "https://t.me/tma123_bot?startapp=" ++ t := by
  rw [get_or_create_of_absent db t n h]
  exact ⟨rfl, rfl⟩

/-- C8: witness — the statement at the empty database and identity "9". -/
theorem C8_new_user_defaults_witness :
    (get_or_create_user dbEmpty "9" "bob").1.points = 0 ∧
      (get_or_create_user dbEmpty "9" "bob").1.ref_link
        = "https://t.me/tma123_bot?startapp=" ++ "9" :=
  C8_new_user_defaults dbEmpty "9" "bob" rfl

/-- C9: a first-time referral whose referrer has no user row still
succeeds: the Referral row with points 100 is appended, no user row is
created, and the users table — hence every stored balance — is left
exactly as it was: the 100 points are credited to no one. -/
theorem C9_missing_referrer (db : DB) (uid fid : String) (now : Nat)
    (hr : findReferral db uid fid = none) (hu : findUser db uid = none) :
    ∃ r, create_referral db uid fid now true
        = (Except.ok r, { db with referrals := db.referrals ++ [r] }) ∧
      r.points = 100 ∧ r.user_tg_id = uid ∧ r.friend_tg_id = fid := by
  refine ⟨{ date := now, user_tg_id := uid, friend_tg_id := fid, points := 100 },
    ?_, rfl, rfl, rfl⟩
  rw [create_referral_success db uid fid now hr]
  have hu' : db.users.find? (fun x => x.tg_id == uid) = none := hu
  rw [modFirst_of_none (fun (x : User) => x.tg_id == uid)
    (fun (x : User) => { x with points := x.points + 100 }) hu']

/-- C9: witness — the statement at the empty database. -/
theorem C9_missing_referrer_witness :
    ∃ r, create_referral dbEmpty "7" "8" 2 true
        = (Except.ok r, { dbEmpty with referrals := dbEmpty.referrals ++ [r] }) ∧
      r.points = 100 ∧ r.user_tg_id = "7" ∧ r.friend_tg_id = "8" :=
  C9_missing_referrer dbEmpty "7" "8" 2 rfl rfl

/-- C10: the referral-link update endpoint never answers NotFound (the
handler is total): an absent identity is first created with empty
display name and balance 0, and the stored link then becomes exactly
the caller-supplied value — not necessarily the template-derived one. -/
theorem C10_referral_link_update (db : DB) (t link : String) :
    (update_referral_link db t link).1 = "Referral link updated successfully" ∧
      refLinkOf (update_referral_link db t link).2 t = some link ∧
      (findUser db t = none →
        ∃ u, findUser (update_referral_link db t link).2 t = some u ∧
          u.username = "" ∧ u.points = 0 ∧ u.ref_link = link) := by
  have h1 : (get_or_create_user db t "").2.users.find? (fun x => x.tg_id == t)
      = some (get_or_create_user db t "").1 := findUser_after_create db t ""
  have h2 := find?_modFirst_self (fun (x : User) => x.tg_id == t)
    (fun (x : User) => { x with ref_link := link }) (fun x => rfl) h1
  refine ⟨rfl, ?_, ?_⟩
  · show (List.find? (fun (x : User) => x.tg_id == t)
        (modFirst (fun (x : User) => x.tg_id == t)
          (fun (x : User) => { x with ref_link := link })
          (get_or_create_user db t "").2.users)).map User.ref_link = some link
    rw [h2]
    rfl
  · intro h
    refine ⟨{ tg_id := t, username := "", ref_link := link, points := 0 },
      ?_, rfl, rfl, rfl⟩
    show List.find? (fun (x : User) => x.tg_id == t)
        (modFirst (fun (x : User) => x.tg_id == t)
          (fun (x : User) => { x with ref_link := link })
          (get_or_create_user db t "").2.users)
      = some { tg_id := t, username := "", ref_link := link, points := 0 }
    rw [h2, get_or_create_of_absent db t "" h]

/-- C10: witness — updating the link of the absent identity "9" in the
empty database succeeds, creates the default user and stores the
supplied link. -/
theorem C10_referral_link_update_witness :
    (update_referral_link dbEmpty "9" "https://example.com/x").1
        = "Referral link updated successfully" ∧
      refLinkOf (update_referral_link dbEmpty "9" "https://example.com/x").2 "9"
        = some "https://example.com/x" ∧
      ∃ u, findUser (update_referral_link dbEmpty "9" "https://example.com/x").2 "9"
          = some u ∧ u.username = "" ∧ u.points = 0 ∧ u.ref_link = "https://example.com/x" := by
  obtain ⟨a, b, c⟩ := C10_referral_link_update dbEmpty "9" "https://example.com/x"
  exact ⟨a, b, c rfl⟩

end NewtestApi
